import Mathlib

set_option maxRecDepth 400000

/-!
Verification of the version-reconciliation and image-assembly pipeline of
intern-container-basic-image-release (main.go), as a shallow embedding:
pure functions become Lean functions, byte strings become `List Nat`
(each entry an ASCII/byte value), Go runtime panics become explicit
`AbortReason` error values, and filesystem/network effects become explicit
state passing over an association-list filesystem plus an effect trace.
-/

/-- Embedding of `SelectStringInList` (main.go lines 181-188): linear scan over
the destination list, exact string equality, true as soon as one entry matches. -/
def SelectStringInList (SrcString : String) : List String → Bool
  | [] => false
  | d :: rest => if d = SrcString then true else SelectStringInList SrcString rest

/-- Embedding of `MatchTag` (main.go lines 190-200): keep, in order, every source
tag that `SelectStringInList` does not find in the destination list. -/
def MatchTag : List String → List String → List String
  | [], _ => []
  | s :: rest, dest =>
    if SelectStringInList s dest then MatchTag rest dest
    else s :: MatchTag rest dest

theorem SelectStringInList_eq_contains (s : String) (l : List String) :
    SelectStringInList s l = l.contains s := by
  induction l with
  | nil => rfl
  | cons d rest ih =>
    by_cases h : d = s
    · subst h
      simp [SelectStringInList]
    · have h' : ¬ s = d := fun hs => h hs.symm
      simp [SelectStringInList, h, h', ih]

theorem MatchTag_eq_filter (A B : List String) :
    MatchTag A B = A.filter (fun s => ! B.contains s) := by
  induction A with
  | nil => rfl
  | cons s rest ih =>
    cases hc : B.contains s <;>
      simp [MatchTag, SelectStringInList_eq_contains, hc, List.filter_cons, ih]

theorem MatchTag_nil_dest (A : List String) : MatchTag A [] = A := by
  induction A with
  | nil => rfl
  | cons s rest ih => simp [MatchTag, SelectStringInList, ih]

/-- C1: `MatchTag` returns exactly the elements of the source list that do not
appear anywhere in the destination list, in the source's original relative
order with duplicates preserved (a filter by non-membership under exact string
equality); in particular `MatchTag [] B = []` and `MatchTag A [] = A`. -/
theorem MatchTag_spec (A B : List String) :
    MatchTag A B = A.filter (fun s => ! B.contains s)
    ∧ MatchTag [] B = [] ∧ MatchTag A [] = A :=
  ⟨MatchTag_eq_filter A B, rfl, MatchTag_nil_dest A⟩

theorem MatchTag_spec_witness :
    MatchTag (["a", "b", "a"]) (["b"]) =
      List.filter (fun s => ! (["b"] : List String).contains s) (["a", "b", "a"])
    ∧ MatchTag [] (["b"]) = []
    ∧ MatchTag (["a", "b", "a"]) [] = ["a", "b", "a"] :=
  MatchTag_spec (["a", "b", "a"]) (["b"])

/-- Hex digit table of Go `encoding/hex` ("0123456789abcdef", lower case),
as ASCII codes: 48-57 for 0-9, 97-102 for a-f. -/
def hexDigit (n : Nat) : Nat := if n < 10 then 48 + n else 97 + (n - 10)

/-- Embedding of Go `hex.EncodeToString` over bytes (Nats below 256): each byte
becomes `hextable[b >> 4]` then `hextable[b & 0x0f]`, i.e. two lower-case hex
characters (the `% 16` is redundant for genuine bytes and keeps the model total). -/
def hexEncodeBytes : List Nat → List Nat
  | [] => []
  | b :: rest => hexDigit (b / 16 % 16) :: hexDigit (b % 16) :: hexEncodeBytes rest

/-- The Go runtime panics of main.go that the claims talk about: byte-slicing a
string shorter than the slice bound, the "Sha256 Sum Error." panic, the
"Only Linux Run." panic, and the `panic(err)` raised in `downloadFile` when
`os.Create` fails (main.go lines 58-61). -/
inductive AbortReason where
  | sliceOutOfRange
  | shaMismatch
  | onlyLinux
  | createFile
deriving DecidableEq

deriving instance DecidableEq for Except

/-- Embedding of `sha256encode` (main.go lines 213-227): stream the file's bytes
through SHA-256 (Go library code, abstracted here as the parameter `hash`,
a function from file bytes to the 32-byte digest) and hex-encode the digest. -/
def sha256encode (hash : List Nat → List Nat) (content : List Nat) : List Nat :=
  hexEncodeBytes (hash content)

/-- Embedding of `ReadFile` (main.go lines 229-235): `string(content)[0:64]`.
Go byte-slicing a string shorter than 64 bytes is a runtime panic
(slice bounds out of range), modeled as `sliceOutOfRange`. -/
def ReadFile (content : List Nat) : Except AbortReason (List Nat) :=
  if content.length < 64 then Except.error AbortReason.sliceOutOfRange
  else Except.ok (content.take 64)

/-- Embedding of the checksum comparison in `ImagePrepare` (main.go lines
284-288): compare `sha256encode` of the image bytes with `ReadFile` of the
sidecar bytes; on inequality the program panics with "Sha256 Sum Error.". -/
def checksumStep (hash : List Nat → List Nat) (img sidecar : List Nat) :
    Except AbortReason Unit :=
  match ReadFile sidecar with
  | Except.error e => Except.error e
  | Except.ok dest =>
    if sha256encode hash img = dest then Except.ok ()
    else Except.error AbortReason.shaMismatch

theorem hexDigit_range (n : Nat) (h : n < 16) :
    (48 ≤ hexDigit n ∧ hexDigit n ≤ 57) ∨ (97 ≤ hexDigit n ∧ hexDigit n ≤ 102) := by
  unfold hexDigit
  split <;> omega

theorem hexEncodeBytes_lower (l : List Nat) :
    ∀ b ∈ hexEncodeBytes l, (48 ≤ b ∧ b ≤ 57) ∨ (97 ≤ b ∧ b ≤ 102) := by
  induction l with
  | nil => intro b hb; simp [hexEncodeBytes] at hb
  | cons x rest ih =>
    intro b hb
    simp only [hexEncodeBytes, List.mem_cons] at hb
    rcases hb with h | h | h
    · subst h; exact hexDigit_range _ (Nat.mod_lt _ (by omega))
    · subst h; exact hexDigit_range _ (Nat.mod_lt _ (by omega))
    · exact ih b h

/-- C3: for a sidecar of at least 64 bytes, checksum verification succeeds
exactly when the (lower-case) hex encoding of the SHA-256 digest of the image
file equals the first 64 bytes of the sidecar; whenever the two differ the step
aborts with the fatal checksum panic; and every byte the hex encoder emits is a
lower-case hex character. -/
theorem checksumStep_spec (hash : List Nat → List Nat) (img sidecar : List Nat)
    (h : 64 ≤ sidecar.length) :
    (checksumStep hash img sidecar = Except.ok ()
      ↔ sha256encode hash img = sidecar.take 64)
    ∧ (sha256encode hash img ≠ sidecar.take 64 →
        checksumStep hash img sidecar = Except.error AbortReason.shaMismatch)
    ∧ (∀ b ∈ sha256encode hash img, (48 ≤ b ∧ b ≤ 57) ∨ (97 ≤ b ∧ b ≤ 102)) := by
  have hr : ReadFile sidecar = Except.ok (sidecar.take 64) := by
    unfold ReadFile
    rw [if_neg (by omega)]
  constructor
  · unfold checksumStep
    rw [hr]
    by_cases heq : sha256encode hash img = sidecar.take 64 <;> simp [heq]
  · constructor
    · intro hne
      simp [checksumStep, hr, hne]
    · exact hexEncodeBytes_lower _

/-- All-zero 32-byte digest, used as a concrete stand-in for a SHA-256 output. -/
def zeros32 : List Nat := List.replicate 32 0

theorem checksumStep_spec_witness :
    64 ≤ (hexEncodeBytes zeros32).length
    ∧ ((checksumStep (fun _ => zeros32) [] (hexEncodeBytes zeros32) = Except.ok ()
        ↔ sha256encode (fun _ => zeros32) [] = (hexEncodeBytes zeros32).take 64)
      ∧ (sha256encode (fun _ => zeros32) [] ≠ (hexEncodeBytes zeros32).take 64 →
          checksumStep (fun _ => zeros32) [] (hexEncodeBytes zeros32) =
            Except.error AbortReason.shaMismatch)
      ∧ (∀ b ∈ sha256encode (fun _ => zeros32) [],
          (48 ≤ b ∧ b ≤ 57) ∨ (97 ≤ b ∧ b ≤ 102))) :=
  ⟨by decide, checksumStep_spec (fun _ => zeros32) [] (hexEncodeBytes zeros32) (by decide)⟩

/-- C9: `ReadFile` unconditionally byte-slices the sidecar to 64 bytes, so for
every sidecar shorter than 64 bytes the read is the slice-out-of-range runtime
panic, and the checksum step aborts with that panic rather than the
checksum-mismatch diagnostic. -/
theorem ReadFile_short_sidecar_panics (content : List Nat) (h : content.length < 64) :
    ReadFile content = Except.error AbortReason.sliceOutOfRange
    ∧ ∀ hash img, checksumStep hash img content = Except.error AbortReason.sliceOutOfRange := by
  have hr : ReadFile content = Except.error AbortReason.sliceOutOfRange := by
    unfold ReadFile
    rw [if_pos h]
  exact ⟨hr, fun hash img => by unfold checksumStep; rw [hr]⟩

theorem ReadFile_short_sidecar_panics_witness :
    ([] : List Nat).length < 64
    ∧ (ReadFile [] = Except.error AbortReason.sliceOutOfRange
      ∧ ∀ hash img, checksumStep hash img [] = Except.error AbortReason.sliceOutOfRange) :=
  ⟨by decide, ReadFile_short_sidecar_panics [] (by decide)⟩

/-- Embedding of `Downloader.Read` (main.go lines 39-47): after the wrapped
reader returns `n` bytes, `Current` increases by `n` and the progress numerator
is computed as `Current * 10000 / Total` (Go int64 division). Go integer
division by zero is a runtime panic, modeled as `none`; the code contains no
guard on `Total`. -/
def DownloaderRead (total current n : Int) : Option (Int × Int) :=
  if total = 0 then none
  else some (current + n, (current + n) * 10000 / total)

/-- C4 (code bug): the progress computation of `Downloader.Read` is NOT guarded
against a zero declared length: for every response with `ContentLength = 0` the
very first `Read` divides `Current * 10000` by `Total = 0`, a Go runtime panic. -/
theorem DownloaderRead_zero_total (current n : Int) :
    DownloaderRead 0 current n = none := by
  simp [DownloaderRead]

theorem DownloaderRead_zero_total_witness : DownloaderRead 0 0 0 = none :=
  DownloaderRead_zero_total 0 0

/-- Backtracking step of Go `filepath.Clean`'s lazy buffer on a `..` component:
with the buffer held in reverse (most recent character first), pop the last
character, then keep popping while the buffer is longer than `dotdot` and the
most recently popped character is not a separator. -/
def dropComponentAux (dotdot : Nat) : Char → List Char → List Char
  | _, [] => []
  | last, c :: rest =>
    if (c :: rest).length > dotdot ∧ ¬ last = '/' then dropComponentAux dotdot c rest
    else c :: rest

/-- Entry to the `..` backtracking of Go `filepath.Clean`: pop the final
character unconditionally, then continue via `dropComponentAux`. -/
def dropComponent (dotdot : Nat) : List Char → List Char
  | [] => []
  | c :: rest => dropComponentAux dotdot c rest

/-- Main loop of Go `filepath.Clean` (unix separator `/`), output buffer kept in
reverse. The first `Nat` is fuel, set to the input length by `goClean`; every
iteration consumes at least one input character, so the fuel never runs out. -/
def cleanLoop (rooted : Bool) : Nat → Nat → List Char → List Char → List Char
  | _, _, rb, [] => rb
  | 0, _, rb, _ => rb
  | fuel + 1, dotdot, rb, c :: rest =>
    if c = '/' then cleanLoop rooted fuel dotdot rb rest
    else if c = '.' ∧ (rest = [] ∨ rest.head? = some '/') then
      cleanLoop rooted fuel dotdot rb rest
    else if c = '.' ∧ rest.head? = some '.' ∧ (rest.tail = [] ∨ rest.tail.head? = some '/') then
      (if rb.length > dotdot then
        cleanLoop rooted fuel dotdot (dropComponent dotdot rb) rest.tail
      else if ¬ rooted then
        (let rb' := '.' :: '.' :: (if rb.length > 0 then '/' :: rb else rb)
         cleanLoop rooted fuel rb'.length rb' rest.tail)
      else cleanLoop rooted fuel dotdot rb rest.tail)
    else
      (let rb1 := if (rooted ∧ ¬ rb.length = 1) ∨ (¬ rooted ∧ ¬ rb.length = 0) then '/' :: rb else rb
       cleanLoop rooted fuel dotdot
         ((rest.takeWhile (fun x => ¬ x = '/')).reverse ++ c :: rb1)
         (rest.dropWhile (fun x => ¬ x = '/')))

/-- Embedding of Go `filepath.Clean` for unix paths (ASCII assumed: Go operates
on bytes, this model on characters, which agree on the paths at issue). -/
def goClean (s : String) : String :=
  match s.toList with
  | [] => "."
  | c :: rest =>
    let rooted := c == '/'
    let rb := cleanLoop rooted (c :: rest).length (if rooted then 1 else 0)
      (if rooted then ['/'] else []) (c :: rest)
    if rb.length = 0 then "." else String.mk rb.reverse

/-- Embedding of Go `filepath.Join` (unix): skip leading empty elements, join
the rest with `/`, and `Clean` the result. -/
def goJoin (elems : List String) : String :=
  let es := elems.dropWhile (fun e => e = "")
  if es.isEmpty then "" else goClean (String.intercalate ("/") es)

/-- Embedding of the target directory computation of `ImagePrepare`
(main.go line 253): `filepath.Join(pwd, "openEuler", version, arch)`. -/
def targetDir (pwd version arch : String) : String :=
  goJoin [pwd, "openEuler", version, arch]

/-- C6 counterexample: two distinct (working directory, version, architecture)
triples that yield the same target directory path — `filepath.Join` joins the
components with `/` and cleans the result, so a separator inside one component
collides with a component boundary; injectivity over all string inputs fails. -/
theorem targetDir_collision_cex :
    targetDir ("/w") ("a/b") ("c") = targetDir ("/w") ("a") ("b/c")
    ∧ ¬ (("a/b" : String) = "a" ∧ ("c" : String) = "b/c") := by
  constructor
  · decide
  · decide

/-- C6 amended: target directory path construction is a pure deterministic
function of (working directory, version, architecture) — equal input triples
always yield equal paths — but it is not injective over all string inputs:
two differing triples can yield the same path. -/
theorem targetDir_deterministic_not_injective :
    (∀ pwd version arch pwd' version' arch',
      pwd = pwd' → version = version' → arch = arch' →
      targetDir pwd version arch = targetDir pwd' version' arch')
    ∧ ¬ (∀ pwd version arch pwd' version' arch',
      targetDir pwd version arch = targetDir pwd' version' arch' →
      pwd = pwd' ∧ version = version' ∧ arch = arch') := by
  constructor
  · intro pwd version arch pwd' version' arch' h1 h2 h3
    rw [h1, h2, h3]
  · intro hinj
    have h := hinj ("/w") ("a/b") ("c") ("/w") ("a") ("b/c") (by decide)
    exact absurd h.2.1 (by decide)

/-- The usage message printed by main (main.go line 393). -/
def usageMessage : String :=
  "bad num of arguments:\n\t1. = dir with image content\n\t2. = image name"

/-- Embedding of the CLI argument-count check of main (main.go lines 392-395):
`argc` is `len(os.Args)` (program name plus positional arguments); when it is
not 3 — i.e. anything other than the expected two positional arguments — main
prints the usage message and calls `os.Exit(0)`; the returned pair is the
printed message and the exit status. -/
def mainArgCheck (argc : Nat) : Option (String × Nat) :=
  if ¬ argc = 3 then some (usageMessage, 0) else none

/-- C8 counterexample: at argument count 1 the usage path is taken and exits
with status 0, but the message contains two newline characters, i.e. it spans
three lines, not two. -/
theorem usage_three_lines_cex :
    mainArgCheck 1 = some (usageMessage, 0)
    ∧ usageMessage.data.count '\n' = 2
    ∧ ¬ usageMessage.data.count '\n' + 1 = 2 := by
  refine ⟨by decide, by decide, by decide⟩

/-- C8 amended: when the program is invoked with an argument count other than
the expected two positional arguments, it prints a three-line usage message
(the message embeds two newline characters) and exits with status 0. -/
theorem usage_path_spec (argc : Nat) (h : ¬ argc = 3) :
    mainArgCheck argc = some (usageMessage, 0)
    ∧ usageMessage.data.count '\n' + 1 = 3 := by
  constructor
  · simp [mainArgCheck, h]
  · decide

theorem usage_path_spec_witness :
    ¬ (1 : Nat) = 3
    ∧ (mainArgCheck 1 = some (usageMessage, 0)
      ∧ usageMessage.data.count '\n' + 1 = 3) :=
  ⟨by decide, usage_path_spec 1 (by decide)⟩

/-- The observable top-level steps of main (main.go lines 379-403). -/
inductive MainStep where
  | getOpenEulerTag
  | getDockerHubTag
  | matchTag
  | imagePrepare
  | argCountCheck
  | printUsageAndExit
  | buildStep
deriving DecidableEq

/-- Embedding of `run` (main.go lines 379-387): upstream scrape, registry tag
fetch, reconcile, materialize, in that order. -/
def runTrace : List MainStep :=
  [MainStep.getOpenEulerTag, MainStep.getDockerHubTag, MainStep.matchTag,
    MainStep.imagePrepare]

/-- Embedding of `main` (main.go lines 389-403) as its ordered step trace:
`run()` executes first, unconditionally; only afterwards is `len(os.Args)`
checked, leading either to the usage exit or to the build. -/
def mainTrace (argc : Nat) : List MainStep :=
  runTrace ++ [MainStep.argCountCheck]
    ++ (if ¬ argc = 3 then [MainStep.printUsageAndExit] else [MainStep.buildStep])

/-- C10: for every argument count, the full reconciliation-and-materialization
pipeline (the four steps of run()) occupies the first four positions of main's
trace; the argument-count check only comes after it, at position 4; and
position 5 is the usage-exit step exactly when the count is wrong — so the
usage-error path is reached only after the pipeline has already executed. -/
theorem pipeline_runs_before_argcheck (argc : Nat) :
    (mainTrace argc).take 4 = runTrace
    ∧ (mainTrace argc)[4]? = some MainStep.argCountCheck
    ∧ (mainTrace argc)[5]? =
        some (if ¬ argc = 3 then MainStep.printUsageAndExit else MainStep.buildStep) := by
  by_cases h : argc = 3 <;> simp [mainTrace, runTrace, h]

theorem pipeline_runs_before_argcheck_witness :
    (mainTrace 1).take 4 = runTrace
    ∧ (mainTrace 1)[4]? = some MainStep.argCountCheck
    ∧ (mainTrace 1)[5]? =
        some (if ¬ (1 : Nat) = 3 then MainStep.printUsageAndExit else MainStep.buildStep) :=
  pipeline_runs_before_argcheck 1

/-- Filesystem model: association list from absolute path to file bytes (a
later entry for the same path shadows earlier ones), plus the set of existing
directories — `os.Create` can only succeed inside an existing directory. -/
structure FS where
  files : List (String × List Nat)
  dirs : List String
deriving DecidableEq

/-- Embedding of `PathExists` (main.go lines 202-211): in this model `os.Stat`
never fails for other reasons, so the error return is always nil. -/
def FS.existsPath (fs : FS) (p : String) : Bool :=
  (fs.files.lookup p).isSome

/-- The bytes stored at a path (empty if absent; only read behind existence
checks or for files just written). -/
def FS.read (fs : FS) (p : String) : List Nat :=
  (fs.files.lookup p).getD []

def FS.write (fs : FS) (p : String) (bytes : List Nat) : FS :=
  ⟨(p, bytes) :: fs.files, fs.dirs⟩

/-- Whether a directory exists (for `os.Create`'s containing directory). -/
def FS.hasDir (fs : FS) (d : String) : Bool :=
  fs.dirs.contains d

/-- A successful `os.MkdirAll`: the directory now exists. -/
def FS.mkdir (fs : FS) (d : String) : FS :=
  ⟨fs.files, d :: fs.dirs⟩

theorem FS.existsPath_mkdir (fs : FS) (d p : String) :
    (fs.mkdir d).existsPath p = fs.existsPath p := rfl

theorem FS.read_mkdir (fs : FS) (d p : String) :
    (fs.mkdir d).read p = fs.read p := rfl

/-- Observable side effects of `ImagePrepare`: directory creation, the printed
mkdir error, network downloads, working-directory changes, and shell commands. -/
inductive Effect where
  | mkdirAll (dir : String)
  | printMkdirErr (dir : String)
  | download (url : String) (filePath : String)
  | chdir (dir : String)
  | execCmd (cmd : String)
deriving DecidableEq

def Effect.isDownload : Effect → Bool
  | Effect.download _ _ => true
  | _ => false

/-- External inputs of `ImagePrepare`: the host OS (`runtime.GOOS`), the
SHA-256 digest function (Go library code, abstract), the network (bytes served
per URL), whether `os.MkdirAll` fails for a given directory, the file name the
`ls | xargs | grep` pipeline prints first (environment-dependent), and the
opaque bytes of the produced rootfs archive and the copied Dockerfile. -/
structure Env where
  host : String
  hash : List Nat → List Nat
  net : String → List Nat
  mkdirFails : String → Bool
  tarName : String
  rootfsBytes : List Nat
  dockerfileBytes : List Nat

/-- Result of (part of) an `ImagePrepare` run: final filesystem, effect trace
in order, and the Go panic that ended the run, if any. -/
structure StepOut where
  fs : FS
  effects : List Effect
  abort : Option AbortReason
deriving DecidableEq

/-- Embedding of Go `strings.ToUpper` (ASCII; the version strings at issue are
ASCII, where Go's Unicode case mapping and `Char.toUpper` agree). -/
def goToUpper (s : String) : String := String.mk (s.data.map Char.toUpper)

/-- `"openEuler-docker." + arch + ".tar.xz"` (main.go line 258). -/
def imageFile (arch : String) : String := "openEuler-docker." ++ arch ++ ".tar.xz"

/-- `"openEuler-docker-rootfs." + arch + ".tar"` (main.go line 259). -/
def rootfsFile (arch : String) : String := "openEuler-docker-rootfs." ++ arch ++ ".tar"

/-- `"openEuler-docker." + arch + ".tar.xz.sha256sum"` (main.go line 260). -/
def sha256sumFile (arch : String) : String :=
  "openEuler-docker." ++ arch ++ ".tar.xz.sha256sum"

/-- Embedding of `downloadFile` (main.go lines 49-72): `http.Get` issues the
request first (a network error would be `log.Fatalln`; the network itself is an
oracle here, so the GET is recorded as the download effect and yields
`env.net url`), then `os.Create` opens the local file — which fails, and the
program `panic(err)`s (main.go lines 58-61), when the containing directory does
not exist; on success the response body is copied into the file. -/
def downloadFile (env : Env) (url filePath dir : String) (fs : FS) :
    FS × List Effect × Option AbortReason :=
  if fs.hasDir dir then
    (fs.write filePath (env.net url), [Effect.download url filePath], none)
  else
    (fs, [Effect.download url filePath], some AbortReason.createFile)

/-- The per-pair body of `ImagePrepare` (main.go lines 258-317) after the
`os.MkdirAll` call: existence-guarded download of the compressed image,
existence-guarded download of the checksum sidecar — each download can abort
the run from inside `downloadFile` —, the wait barrier (a no-op in this
sequential model), checksum verification, then — mirroring the source order —
the rootfs existence check, the unconditional host-platform assertion, and the
existence-guarded extraction block. The extraction block's filesystem effect
follows the commands it runs: `tar -xf` extracts a nested tar, `mv` renames it
to `openEuler-docker-rootfs.<arch>.tar`, `xz -z FILE` compresses FILE into
FILE.xz and removes FILE (standard xz behavior; the spec's layout in its
section 6 lists the resulting `.tar.xz`), and `cp` places the Dockerfile — so
afterwards the directory holds the rootfs `.tar.xz` and `Dockerfile`, and no
rootfs `.tar`. -/
def processPairAfterMkdir (env : Env) (pwd dir version arch : String) (fs : FS) : StepOut :=
  let BasicURL := "https://repo.openeuler.org/openEuler-"
    ++ goToUpper version ++ "/docker_img/"
  let imagePath := goJoin [dir, imageFile arch]
  let sha256sumPath := goJoin [dir, sha256sumFile arch]
  let rootfsPath := goJoin [dir, rootfsFile arch]
  let step1 :=
    if fs.existsPath imagePath then (fs, ([] : List Effect), (none : Option AbortReason))
    else downloadFile env (BasicURL ++ arch ++ "/" ++ imageFile arch) imagePath dir fs
  match step1 with
  | (fs1, e1, some a) => ⟨fs1, e1, some a⟩
  | (fs1, e1, none) =>
    let step2 :=
      if fs1.existsPath sha256sumPath then (fs1, ([] : List Effect), (none : Option AbortReason))
      else downloadFile env (BasicURL ++ arch ++ "/" ++ sha256sumFile arch) sha256sumPath dir fs1
    match step2 with
    | (fs2, e2, some a) => ⟨fs2, e1 ++ e2, some a⟩
    | (fs2, e2, none) =>
      let effs := e1 ++ e2
      match checksumStep env.hash (fs2.read imagePath) (fs2.read sha256sumPath) with
      | Except.error e => ⟨fs2, effs, some e⟩
      | Except.ok _ =>
        let rootfsExists := fs2.existsPath rootfsPath
        if ¬ env.host = "linux" then ⟨fs2, effs, some AbortReason.onlyLinux⟩
        else if rootfsExists then ⟨fs2, effs, none⟩
        else
          let e3 := [Effect.chdir dir,
            Effect.execCmd ("tar -xf openEuler-docker." ++ arch
              ++ ".tar.xz --wildcards \x27*.tar\x27 --exclude \x27layer.tar\x27"),
            Effect.execCmd ("ls | xargs -n1 | grep -v openEuler |grep *.tar"),
            Effect.execCmd ("mv " ++ env.tarName ++ " openEuler-docker-rootfs." ++ arch ++ ".tar"),
            Effect.execCmd ("xz -z openEuler-docker-rootfs." ++ arch ++ ".tar"),
            Effect.execCmd ("cp " ++ pwd ++ "/Dockerfile " ++ dir ++ "/Dockerfile")]
          let fs3 := (fs2.write (rootfsPath ++ ".xz") env.rootfsBytes).write
            (goJoin [dir, "Dockerfile"]) env.dockerfileBytes
          ⟨fs3, effs ++ e3, none⟩

/-- One iteration of `ImagePrepare`'s nested loop (main.go lines 250-318):
compute the target directory and `os.MkdirAll` it — on success the directory
exists from then on; a failure is only printed (`fmt.Println(err)`, main.go
lines 254-257) and the iteration continues into the body, whose `downloadFile`
calls can then panic at `os.Create` since the directory is missing. -/
def processPair (env : Env) (pwd version arch : String) (fs : FS) : StepOut :=
  let dir := targetDir pwd version arch
  let mk :=
    if env.mkdirFails dir then (fs, [Effect.mkdirAll dir, Effect.printMkdirErr dir])
    else (fs.mkdir dir, [Effect.mkdirAll dir])
  let r := processPairAfterMkdir env pwd dir version arch mk.1
  ⟨r.fs, mk.2 ++ r.effects, r.abort⟩

/-- Sequential processing of the version x architecture pairs; a Go panic in
one pair ends the whole run. -/
def processPairs (env : Env) (pwd : String) : List (String × String) → FS → StepOut
  | [], fs => ⟨fs, [], none⟩
  | (v, a) :: rest, fs =>
    let r := processPair env pwd v a fs
    match r.abort with
    | some e => ⟨r.fs, r.effects, some e⟩
    | none =>
      let r2 := processPairs env pwd rest r.fs
      ⟨r2.fs, r.effects ++ r2.effects, r2.abort⟩

/-- Embedding of `ImagePrepare` (main.go lines 247-320): version outer loop,
architecture inner loop, `pwd` captured once before the loops. -/
def ImagePrepare (env : Env) (pwd : String) (versions archs : List String) (fs : FS) : StepOut :=
  processPairs env pwd (versions.flatMap (fun v => archs.map (fun a => (v, a)))) fs

/-- A linux-host environment whose network serves, for every URL, the 64-byte
lower-case hex digest matching the constant SHA-256 stand-in, so both the image
download and the sidecar download verify. -/
def envLinux : Env :=
  ⟨"linux", fun _ => zeros32, fun _ => hexEncodeBytes zeros32, fun _ => false,
    "m.tar", [1], [2]⟩

/-- A first `ImagePrepare` run over one version and one architecture, starting
from an empty target tree. -/
def firstRun : StepOut := ImagePrepare envLinux ("/w") (["22.03"]) (["x86_64"]) ⟨[], []⟩

/-- The same `ImagePrepare` run repeated over the directory the first run
populated. -/
def secondRun : StepOut := ImagePrepare envLinux ("/w") (["22.03"]) (["x86_64"]) firstRun.fs

/-- C2 (code bug): the first run completes, and a second run over the
already-populated directory performs zero downloads (both download existence
checks short-circuit) — but re-extraction is NOT short-circuited: the first
run's `xz -z` left `openEuler-docker-rootfs.x86_64.tar.xz` and removed the
`.tar`, so the guard `PathExists(openEuler-docker-rootfs.x86_64.tar)` is false
on the second run and the whole extraction block (chdir, tar, ls, mv, xz, cp)
executes again. -/
theorem ImagePrepare_second_run_reextracts :
    firstRun.abort = none
    ∧ secondRun.abort = none
    ∧ secondRun.effects.all (fun e => ! e.isDownload) = true
    ∧ firstRun.fs.existsPath
        ("/w/openEuler/22.03/x86_64/openEuler-docker-rootfs.x86_64.tar") = false
    ∧ firstRun.fs.existsPath
        ("/w/openEuler/22.03/x86_64/openEuler-docker-rootfs.x86_64.tar.xz") = true
    ∧ Effect.execCmd
        ("tar -xf openEuler-docker.x86_64.tar.xz --wildcards \x27*.tar\x27 --exclude \x27layer.tar\x27")
        ∈ secondRun.effects := by
  decide

/-- Like `envLinux`, but `os.MkdirAll` fails for every directory. -/
def envMkdirFail : Env :=
  ⟨"linux", fun _ => zeros32, fun _ => hexEncodeBytes zeros32, fun _ => true,
    "m.tar", [1], [2]⟩

/-- An `ImagePrepare` run, from an empty tree, in which directory creation
fails. -/
def mkdirFailRun : StepOut :=
  ImagePrepare envMkdirFail ("/w") (["22.03"]) (["x86_64"]) ⟨[], []⟩

/-- C5 counterexample: with `os.MkdirAll` failing for the target directory, the
materializer does not stop at the mkdir step: the error is printed and the run
proceeds into the download step of that very pair — the HTTP request for the
compressed image is issued — and only then aborts, with the `os.Create` panic
inside `downloadFile` (the directory was never created), not with a
mkdir-failure abort. This refutes the claim that the run "does not proceed to
download or verify anything for that pair". -/
theorem mkdir_failure_proceeds_to_download_cex :
    Effect.printMkdirErr ("/w/openEuler/22.03/x86_64") ∈ mkdirFailRun.effects
    ∧ Effect.download
        ("https://repo.openeuler.org/openEuler-22.03/docker_img/x86_64/openEuler-docker.x86_64.tar.xz")
        ("/w/openEuler/22.03/x86_64/openEuler-docker.x86_64.tar.xz")
        ∈ mkdirFailRun.effects
    ∧ mkdirFailRun.abort = some AbortReason.createFile := by
  decide

/-- C5 amended: a failure to create a pair's target directory is not itself
treated as fatal: `os.MkdirAll`'s error is only printed and the materializer
proceeds into the download step of that pair — when the compressed image is
absent (the directory having never been created) it still issues the HTTP
request for the image — and the run then aborts with the `os.Create` panic
inside `downloadFile`, a consequence of the missing directory, not a
mkdir-failure abort policy. -/
theorem mkdir_failure_prints_then_create_panics (env : Env) (pwd version arch : String)
    (fs : FS)
    (hm : env.mkdirFails (targetDir pwd version arch) = true)
    (hd : fs.hasDir (targetDir pwd version arch) = false)
    (hi : fs.existsPath (goJoin [targetDir pwd version arch, imageFile arch]) = false) :
    (processPair env pwd version arch fs).effects
      = [Effect.mkdirAll (targetDir pwd version arch),
         Effect.printMkdirErr (targetDir pwd version arch),
         Effect.download
           ("https://repo.openeuler.org/openEuler-" ++ goToUpper version ++ "/docker_img/"
             ++ arch ++ "/" ++ imageFile arch)
           (goJoin [targetDir pwd version arch, imageFile arch])]
    ∧ (processPair env pwd version arch fs).abort = some AbortReason.createFile := by
  constructor <;>
    simp [processPair, processPairAfterMkdir, downloadFile, hm, hd, hi]

theorem mkdir_failure_prints_then_create_panics_witness :
    envMkdirFail.mkdirFails (targetDir ("/w") ("22.03") ("x86_64")) = true
    ∧ (FS.mk [] []).hasDir (targetDir ("/w") ("22.03") ("x86_64")) = false
    ∧ (FS.mk [] []).existsPath
        (goJoin [targetDir ("/w") ("22.03") ("x86_64"), imageFile ("x86_64")]) = false
    ∧ ((processPair envMkdirFail ("/w") ("22.03") ("x86_64") (FS.mk [] [])).effects
        = [Effect.mkdirAll (targetDir ("/w") ("22.03") ("x86_64")),
           Effect.printMkdirErr (targetDir ("/w") ("22.03") ("x86_64")),
           Effect.download
             ("https://repo.openeuler.org/openEuler-" ++ goToUpper ("22.03") ++ "/docker_img/"
               ++ "x86_64" ++ "/" ++ imageFile ("x86_64"))
             (goJoin [targetDir ("/w") ("22.03") ("x86_64"), imageFile ("x86_64")])]
      ∧ (processPair envMkdirFail ("/w") ("22.03") ("x86_64") (FS.mk [] [])).abort
          = some AbortReason.createFile) :=
  ⟨by decide, by decide, by decide,
    mkdir_failure_prints_then_create_panics envMkdirFail ("/w") ("22.03") ("x86_64")
      (FS.mk [] []) (by decide) (by decide) (by decide)⟩

/-- Like `envLinux`, but the host OS is darwin. -/
def envDarwin : Env :=
  ⟨"darwin", fun _ => zeros32, fun _ => hexEncodeBytes zeros32, fun _ => false,
    "m.tar", [1], [2]⟩

/-- A target tree in which one pair is fully populated: the directory exists
and the compressed image, matching checksum sidecar, and derived-rootfs file
are all present. -/
def fsRootfsPresent : FS :=
  ((FS.mk [] (["/w/openEuler/22.03/x86_64"])).write
      ("/w/openEuler/22.03/x86_64/openEuler-docker.x86_64.tar.xz")
      (hexEncodeBytes zeros32)).write
    ("/w/openEuler/22.03/x86_64/openEuler-docker.x86_64.tar.xz.sha256sum")
    (hexEncodeBytes zeros32)
  |>.write ("/w/openEuler/22.03/x86_64/openEuler-docker-rootfs.x86_64.tar") [3]

/-- C7 counterexample: a pair whose derived-rootfs file is already present, on
a non-linux host, with both downloaded files present and the checksum passing:
the run panics with "Only Linux Run." — the host-platform assertion executes
even though the extraction branch is never entered, so the pair does not
complete. -/
theorem platform_check_unconditional_cex :
    fsRootfsPresent.existsPath
      ("/w/openEuler/22.03/x86_64/openEuler-docker-rootfs.x86_64.tar") = true
    ∧ (ImagePrepare envDarwin ("/w") (["22.03"]) (["x86_64"]) fsRootfsPresent).abort
        = some AbortReason.onlyLinux := by
  decide

/-- C7 amended: the host-platform assertion of `ImagePrepare` is performed
unconditionally for every pair, after checksum verification, not only inside
the extraction branch: whenever both files are present, their checksum step
succeeds, and the host OS is not linux, the pair aborts with the platform
panic — regardless of whether the derived-rootfs file already exists. -/
theorem platform_check_unconditional (env : Env) (pwd version arch : String) (fs : FS)
    (hhost : ¬ env.host = "linux")
    (himg : fs.existsPath (goJoin [targetDir pwd version arch, imageFile arch]) = true)
    (hsum : fs.existsPath (goJoin [targetDir pwd version arch, sha256sumFile arch]) = true)
    (hok : checksumStep env.hash
        (fs.read (goJoin [targetDir pwd version arch, imageFile arch]))
        (fs.read (goJoin [targetDir pwd version arch, sha256sumFile arch]))
        = Except.ok ()) :
    (processPair env pwd version arch fs).abort = some AbortReason.onlyLinux := by
  cases hmk : env.mkdirFails (targetDir pwd version arch) <;>
    simp [processPair, processPairAfterMkdir, FS.existsPath_mkdir, FS.read_mkdir,
      hmk, himg, hsum, hok, hhost]

theorem platform_check_unconditional_witness :
    ¬ envDarwin.host = "linux"
    ∧ fsRootfsPresent.existsPath
        (goJoin [targetDir ("/w") ("22.03") ("x86_64"), imageFile ("x86_64")]) = true
    ∧ fsRootfsPresent.existsPath
        (goJoin [targetDir ("/w") ("22.03") ("x86_64"), sha256sumFile ("x86_64")]) = true
    ∧ checksumStep envDarwin.hash
        (fsRootfsPresent.read (goJoin [targetDir ("/w") ("22.03") ("x86_64"), imageFile ("x86_64")]))
        (fsRootfsPresent.read (goJoin [targetDir ("/w") ("22.03") ("x86_64"), sha256sumFile ("x86_64")]))
        = Except.ok ()
    ∧ (processPair envDarwin ("/w") ("22.03") ("x86_64") fsRootfsPresent).abort
        = some AbortReason.onlyLinux :=
  ⟨by decide, by decide, by decide, by decide,
    platform_check_unconditional envDarwin ("/w") ("22.03") ("x86_64") fsRootfsPresent
      (by decide) (by decide) (by decide) (by decide)⟩
